import Mathlib

/-!
Verification of the free-proxy-api service (src/main.py): a FastAPI layer
exposing three proxy operations (`/proxy`, `/proxy/config`, `/proxies`) over
the external `fp` (FreeProxy) engine.  The handlers in src/main.py are
embedded directly; the FreeProxy engine lives in the external `fp` package
(not under src/) and is modelled from the spec where a claim needs it.
-/

namespace FreeProxyAPI

/-- Anonymity levels of a proxy candidate, ordered
transparent < anonymous < elite (spec section 3). -/
inductive Anonymity where
  | transparent
  | anonymous
  | elite
deriving DecidableEq, Repr

/-- Numeric rank realising the ordering transparent < anonymous < elite. -/
def Anonymity.rank : Anonymity → Nat
  | .transparent => 0
  | .anonymous => 1
  | .elite => 2

/-- A discovered proxy endpoint (spec section 3, ProxyCandidate). -/
structure ProxyCandidate where
  address : String
  countryCode : Option String
  anonymityLevel : Anonymity
  supportsHttps : Bool
  googleCompatible : Option Bool
deriving DecidableEq, Repr

/-- The criteria record handed to the engine: the keyword arguments of the
`FreeProxy(...)` constructor call in src/main.py (country_id, timeout, rand,
anonym, elite, google, https).  The timeout is an opaque pass-through value
for the claims considered here; it is modelled as a rational. -/
structure FreeProxy where
  country_id : Option (List String)
  timeout : Rat
  rand : Bool
  anonym : Bool
  elite : Bool
  google : Option Bool
  https : Bool
deriving DecidableEq, Repr

/-- Outcome of one engine invocation as observed by a handler's try block:
a value, a raised `FreeProxyException` (with its message), or any other
unexpected exception. -/
inductive EngineOutcome (α : Type) where
  | ok (value : α)
  | freeProxyError (msg : String)
  | otherError (msg : String)
deriving DecidableEq, Repr

/-- An HTTP-level result: a successful response body, or an `HTTPException`
with a status code and detail string. -/
inductive HttpResult (α : Type) where
  | ok (body : α)
  | error (status : Nat) (detail : String)
deriving DecidableEq, Repr

/-- Response model of GET /proxy (src/main.py, ProxyResponse). -/
structure ProxyResponse where
  proxy : String
  schema : String
  country : Option String
deriving DecidableEq, Repr

/-- Response model of GET /proxies (src/main.py, ProxyListResponse). -/
structure ProxyListResponse where
  proxies : List String
  count : Nat
  country : Option String
deriving DecidableEq, Repr

/-- Response model of GET /proxy/config (src/main.py, ProxyConfigResponse).
The two one-key Python dicts are embedded as association lists. -/
structure ProxyConfigResponse where
  proxy_url : String
  requests : List (String × String)
  playwright : List (String × String)
deriving DecidableEq, Repr

/-- The query parameters shared by the three proxy endpoints in src/main.py
(`limit` of /proxies is passed separately). -/
structure ProxyQuery where
  country : Option String
  timeout : Rat
  random : Bool
  anonymous : Bool
  elite : Bool
  https : Bool
  google : Option Bool
deriving DecidableEq, Repr

/-- `country_list = [country] if country else None` (src/main.py line 72):
Python truthiness makes both `None` and the empty string fall to `None`. -/
def country_list (country : Option String) : Option (List String) :=
  match country with
  | none => none
  | some s => if s = "" then none else some [s]

/-- The `FreeProxy(...)` constructor call shared by the three handlers
(src/main.py lines 74-82, 122-130, 170-178): each query parameter is passed
to the engine unchanged, the country through `country_list`. -/
def mkFreeProxy (q : ProxyQuery) : FreeProxy :=
  { country_id := country_list q.country
    timeout := q.timeout
    rand := q.random
    anonym := q.anonymous
    elite := q.elite
    google := q.google
    https := q.https }

/-- Handler of GET /proxy (src/main.py, get_proxy).  `eg` is the engine call
`proxy_handler.get()`; its exceptions are mapped by the except clauses:
`FreeProxyException` to 503 with the exception's message, anything else to
500 "Internal server error". -/
def get_proxy (q : ProxyQuery) (eg : FreeProxy → EngineOutcome String) :
    HttpResult ProxyResponse :=
  match eg (mkFreeProxy q) with
  | .ok proxy_url =>
      .ok { proxy := proxy_url
            schema := if q.https then "https" else "http"
            country := q.country }
  | .freeProxyError msg => .error 503 msg
  | .otherError _ => .error 500 "Internal server error"

/-- Handler of GET /proxy/config (src/main.py, get_proxy_config). -/
def get_proxy_config (q : ProxyQuery) (eg : FreeProxy → EngineOutcome String) :
    HttpResult ProxyConfigResponse :=
  match eg (mkFreeProxy q) with
  | .ok proxy_url =>
      .ok { proxy_url := proxy_url
            requests := [(if q.https then "https" else "http", proxy_url)]
            playwright := [("server", proxy_url)] }
  | .freeProxyError msg => .error 503 msg
  | .otherError _ => .error 500 "Internal server error"

/-- Handler of GET /proxies (src/main.py, get_proxy_list).  `el` is the
engine call `proxy_handler.get_proxy_list(repeat=False)`; the handler takes
the first `limit` entries, raises `FreeProxyException` (caught below as 503)
when the truncated list is empty, and otherwise answers with the truncated
list and its length. -/
def get_proxy_list (q : ProxyQuery) (limit : Nat)
    (el : FreeProxy → EngineOutcome (List String)) :
    HttpResult ProxyListResponse :=
  match el (mkFreeProxy q) with
  | .ok proxy_list =>
      let limited_proxies := proxy_list.take limit
      if limited_proxies.isEmpty then
        .error 503 "No proxies found matching the criteria"
      else
        .ok { proxies := limited_proxies
              count := limited_proxies.length
              country := q.country }
  | .freeProxyError msg => .error 503 msg
  | .otherError _ => .error 500 "Internal server error"

/-- Modelled from the spec: the effective minimum-anonymity level induced by
the `anonym` and `elite` flags (spec section 6, "elite implies anonymous");
the flag handling lives in the external `fp` engine, not under src/. -/
def effectiveAnonymityFloor (fp : FreeProxy) : Anonymity :=
  if fp.elite then .elite
  else if fp.anonym then .anonymous
  else .transparent

/-- Modelled from the spec: the Filter Engine's per-candidate predicate
(spec section 4.2) — country membership when a country list is given,
anonymity threshold under transparent < anonymous < elite, HTTPS requirement
when `https`, exact Google-compatibility match when `google` is given
(unknown compatibility excluded).  The filter lives in the external `fp`
engine, not under src/. -/
def criteriaMatch (fp : FreeProxy) (c : ProxyCandidate) : Bool :=
  (match fp.country_id with
   | none => true
   | some cs =>
     match c.countryCode with
     | none => false
     | some cc => cs.contains cc) &&
  decide ((effectiveAnonymityFloor fp).rank ≤ c.anonymityLevel.rank) &&
  (!fp.https || c.supportsHttps) &&
  (match fp.google with
   | none => true
   | some g => c.googleCompatible = some g)

/-- Modelled from the spec: the Filter Engine applied to a pool
(spec section 4.2); pure, preserves pool order.  Not under src/. -/
def FreeProxy.filterCandidates (fp : FreeProxy) (pool : List ProxyCandidate) :
    List ProxyCandidate :=
  pool.filter (criteriaMatch fp)

/-- Modelled from the spec: the filtered candidate sequence in the order the
Filter Engine produces it — pool order when sequential, a shuffled
permutation when `rand` (spec section 4.2).  The shuffle is abstracted as a
function argument.  Not under src/. -/
def FreeProxy.orderedCandidates (fp : FreeProxy) (pool : List ProxyCandidate)
    (shuffle : List ProxyCandidate → List ProxyCandidate) :
    List ProxyCandidate :=
  if fp.rand then shuffle (fp.filterCandidates pool)
  else fp.filterCandidates pool

/-- Modelled from the spec: `get()` of the Selector (spec section 4.4) —
scan the filtered sequence for the first live candidate (`alive` abstracts
the Validator probe) and return its address with scheme prefix `https` iff
the `https` criterion, else `http`; fail with the engine's typed exception
when exhausted.  Not under src/. -/
def FreeProxy.get (fp : FreeProxy) (pool : List ProxyCandidate)
    (shuffle : List ProxyCandidate → List ProxyCandidate)
    (alive : ProxyCandidate → Bool) : EngineOutcome String :=
  match (fp.orderedCandidates pool shuffle).find? alive with
  | some c => .ok ((if fp.https then "https" else "http") ++ "://" ++ c.address)
  | none => .freeProxyError "There are no working proxies at this time."

/-- Modelled from the spec: `get_proxy_list` of the engine (spec section
4.4, getList) — the filtered candidates' addresses, in the Filter Engine's
order, with no validation (the definition consults no liveness oracle).
Not under src/. -/
def FreeProxy.get_proxy_list (fp : FreeProxy) (pool : List ProxyCandidate)
    (shuffle : List ProxyCandidate → List ProxyCandidate) : List String :=
  (fp.orderedCandidates pool shuffle).map ProxyCandidate.address

/-- Claim C1: on every request to the three proxy operations, an engine
`FreeProxyException` is answered with HTTP 503 carrying the exception's
message, and any other unexpected exception with HTTP 500; so "no inventory"
and "service broken" are always distinguishable by status code. -/
theorem exception_to_status_mapping (q : ProxyQuery) (limit : Nat)
    (msg m : String)
    (egS egC : FreeProxy → EngineOutcome String)
    (egL : FreeProxy → EngineOutcome (List String)) :
    (egS (mkFreeProxy q) = .freeProxyError msg →
      get_proxy q egS = .error 503 msg) ∧
    (egC (mkFreeProxy q) = .freeProxyError msg →
      get_proxy_config q egC = .error 503 msg) ∧
    (egL (mkFreeProxy q) = .freeProxyError msg →
      get_proxy_list q limit egL = .error 503 msg) ∧
    (egS (mkFreeProxy q) = .otherError m →
      get_proxy q egS = .error 500 "Internal server error") ∧
    (egC (mkFreeProxy q) = .otherError m →
      get_proxy_config q egC = .error 500 "Internal server error") ∧
    (egL (mkFreeProxy q) = .otherError m →
      get_proxy_list q limit egL = .error 500 "Internal server error") := by
  refine ⟨?_, ?_, ?_, ?_, ?_, ?_⟩ <;> intro h <;>
    simp [get_proxy, get_proxy_config, get_proxy_list, h]

/-- Witness for C1 at a concrete request and concrete engine outcomes. -/
theorem exception_to_status_mapping_witness :
    get_proxy ⟨none, 1, false, false, false, false, none⟩
      (fun _ => .freeProxyError "every source failed") =
      .error 503 "every source failed" ∧
    get_proxy_list ⟨none, 1, false, false, false, false, none⟩ 10
      (fun _ => .otherError "boom") = .error 500 "Internal server error" :=
  ⟨(exception_to_status_mapping ⟨none, 1, false, false, false, false, none⟩ 10
      "every source failed" "boom" (fun _ => .freeProxyError "every source failed")
      (fun _ => .freeProxyError "every source failed")
      (fun _ => .freeProxyError "every source failed")).1 rfl,
   (exception_to_status_mapping ⟨none, 1, false, false, false, false, none⟩ 10
      "every source failed" "boom" (fun _ => .otherError "boom")
      (fun _ => .otherError "boom")
      (fun _ => .otherError "boom")).2.2.2.2.2 rfl⟩

/-- Claim C6: getConfig is a pure formatting of the single get() result —
the `proxy_url` field is the engine's result unchanged, `requests` binds
exactly the key `https` (when the https flag is set) or `http` (otherwise)
to it, and `playwright` binds exactly the key `server` to it. -/
theorem get_proxy_config_pure_formatting (q : ProxyQuery)
    (eg : FreeProxy → EngineOutcome String) (u : String)
    (h : eg (mkFreeProxy q) = .ok u) :
    get_proxy_config q eg =
      .ok { proxy_url := u
            requests := [(if q.https then "https" else "http", u)]
            playwright := [("server", u)] } := by
  simp [get_proxy_config, h]

/-- Witness for C6 at a concrete request with the https flag set. -/
theorem get_proxy_config_pure_formatting_witness :
    get_proxy_config ⟨none, 1, false, false, false, true, none⟩
      (fun _ => .ok "5.6.7.8:3128") =
      .ok { proxy_url := "5.6.7.8:3128"
            requests := [("https", "5.6.7.8:3128")]
            playwright := [("server", "5.6.7.8:3128")] } :=
  get_proxy_config_pure_formatting ⟨none, 1, false, false, false, true, none⟩
    (fun _ => .ok "5.6.7.8:3128") "5.6.7.8:3128" rfl

/-- Claim C9: every successful getList response has `count` equal to the
length of `proxies`, a non-empty `proxies` list, and hence
`1 ≤ count ≤ limit`. -/
theorem get_proxy_list_count_invariant (q : ProxyQuery) (limit : Nat)
    (el : FreeProxy → EngineOutcome (List String)) (resp : ProxyListResponse)
    (hlim : 1 ≤ limit)
    (h : get_proxy_list q limit el = .ok resp) :
    resp.count = resp.proxies.length ∧ resp.proxies ≠ [] ∧
      1 ≤ resp.count ∧ resp.count ≤ limit := by
  cases heg : el (mkFreeProxy q) with
  | ok l =>
      simp only [get_proxy_list, heg] at h
      by_cases hemp : (l.take limit).isEmpty
      · simp [hemp] at h
      · simp only [hemp, if_neg, Bool.false_eq_true, not_false_eq_true,
          if_false, HttpResult.ok.injEq] at h
        have hne : l.take limit ≠ [] := by simpa [List.isEmpty_iff] using hemp
        have hpos : 0 < (l.take limit).length := List.length_pos.mpr hne
        have hle : (l.take limit).length ≤ limit := List.length_take_le limit l
        subst h
        exact ⟨rfl, hne, hpos, hle⟩
  | freeProxyError msg => simp [get_proxy_list, heg] at h
  | otherError msg => simp [get_proxy_list, heg] at h

/-- Witness for C9 at a concrete request and a concrete engine list. -/
theorem get_proxy_list_count_invariant_witness :
    let resp : ProxyListResponse :=
      { proxies := ["1.1.1.1:80", "2.2.2.2:80"], count := 2, country := none }
    resp.count = resp.proxies.length ∧ resp.proxies ≠ [] ∧
      1 ≤ resp.count ∧ resp.count ≤ 5 :=
  get_proxy_list_count_invariant ⟨none, 1, false, false, false, false, none⟩ 5
    (fun _ => .ok ["1.1.1.1:80", "2.2.2.2:80"])
    { proxies := ["1.1.1.1:80", "2.2.2.2:80"], count := 2, country := none }
    (by decide) (by decide)

/-- Claim C10: in every successful get() and getList response, the country
field is exactly the request's country parameter echoed back (none when
absent), whatever the engine returned. -/
theorem country_echoed_back (q : ProxyQuery) (limit : Nat)
    (egS : FreeProxy → EngineOutcome String)
    (egL : FreeProxy → EngineOutcome (List String))
    (r1 : ProxyResponse) (r2 : ProxyListResponse) :
    (get_proxy q egS = .ok r1 → r1.country = q.country) ∧
    (get_proxy_list q limit egL = .ok r2 → r2.country = q.country) := by
  constructor
  · intro h
    cases heg : egS (mkFreeProxy q) with
    | ok u =>
        simp only [get_proxy, heg, HttpResult.ok.injEq] at h
        subst h; rfl
    | freeProxyError msg => simp [get_proxy, heg] at h
    | otherError msg => simp [get_proxy, heg] at h
  · intro h
    cases heg : egL (mkFreeProxy q) with
    | ok l =>
        simp only [get_proxy_list, heg] at h
        by_cases hemp : (l.take limit).isEmpty
        · simp [hemp] at h
        · simp only [hemp, Bool.false_eq_true, not_false_eq_true, if_false,
            HttpResult.ok.injEq] at h
          subst h; rfl
    | freeProxyError msg => simp [get_proxy_list, heg] at h
    | otherError msg => simp [get_proxy_list, heg] at h

/-- Witness for C10 at a concrete request carrying a country code. -/
theorem country_echoed_back_witness :
    (ProxyResponse.mk "http://1.2.3.4:80" "http" (some "US")).country =
      (ProxyQuery.mk (some "US") 1 false false false false none).country :=
  (country_echoed_back ⟨some "US", 1, false, false, false, false, none⟩ 10
    (fun _ => .ok "http://1.2.3.4:80") (fun _ => .ok [])
    ⟨"http://1.2.3.4:80", "http", some "US"⟩ ⟨[], 0, none⟩).1 rfl

/-- Claim C3: for a getList request with limit L (1 ≤ L ≤ 100) whose engine
call yields the filtered candidate sequence, the successful response holds
exactly the first min(L, n) addresses of that sequence, in order; the engine
invocation `FreeProxy.get_proxy_list` consults no liveness oracle, so no
network validation is performed on any of them. -/
theorem get_proxy_list_truncation (q : ProxyQuery) (limit : Nat)
    (pool : List ProxyCandidate)
    (shuffle : List ProxyCandidate → List ProxyCandidate)
    (resp : ProxyListResponse)
    (hlo : 1 ≤ limit) (hhi : limit ≤ 100)
    (h : get_proxy_list q limit
      (fun fp => .ok (fp.get_proxy_list pool shuffle)) = .ok resp) :
    resp.proxies = ((mkFreeProxy q).get_proxy_list pool shuffle).take limit ∧
    resp.proxies.length =
      min limit ((mkFreeProxy q).get_proxy_list pool shuffle).length := by
  simp only [get_proxy_list] at h
  by_cases hemp : (((mkFreeProxy q).get_proxy_list pool shuffle).take limit).isEmpty
  · simp [hemp] at h
  · simp only [hemp, Bool.false_eq_true, not_false_eq_true, if_false,
      HttpResult.ok.injEq] at h
    subst h
    exact ⟨rfl, List.length_take ..⟩

/-- Witness for C3: a pool of three matching candidates, limit 2. -/
theorem get_proxy_list_truncation_witness :
    (ProxyListResponse.mk ["1.1.1.1:80", "2.2.2.2:80"] 2 none).proxies =
      ((mkFreeProxy ⟨none, 1, false, false, false, false, none⟩).get_proxy_list
        [⟨"1.1.1.1:80", some "US", .elite, true, none⟩,
         ⟨"2.2.2.2:80", some "GB", .anonymous, false, none⟩,
         ⟨"3.3.3.3:80", none, .transparent, false, none⟩] id).take 2 ∧
    (ProxyListResponse.mk ["1.1.1.1:80", "2.2.2.2:80"] 2 none).proxies.length =
      min 2 ((mkFreeProxy ⟨none, 1, false, false, false, false, none⟩).get_proxy_list
        [⟨"1.1.1.1:80", some "US", .elite, true, none⟩,
         ⟨"2.2.2.2:80", some "GB", .anonymous, false, none⟩,
         ⟨"3.3.3.3:80", none, .transparent, false, none⟩] id).length :=
  get_proxy_list_truncation ⟨none, 1, false, false, false, false, none⟩ 2
    [⟨"1.1.1.1:80", some "US", .elite, true, none⟩,
     ⟨"2.2.2.2:80", some "GB", .anonymous, false, none⟩,
     ⟨"3.3.3.3:80", none, .transparent, false, none⟩] id
    ⟨["1.1.1.1:80", "2.2.2.2:80"], 2, none⟩
    (by decide) (by decide) (by decide)

/-- Claim C4: getList fails with the NoProxiesFound condition (status 503
with its message) exactly when the engine's filtered list is empty before
truncation; with limit at least 1, emptiness after taking the first limit
elements coincides with emptiness of the whole list. -/
theorem get_proxy_list_empty_iff (q : ProxyQuery) (limit : Nat)
    (l : List String) (hlo : 1 ≤ limit) :
    (get_proxy_list q limit (fun _ => .ok l) =
      .error 503 "No proxies found matching the criteria" ↔ l = []) ∧
    (l.take limit = [] ↔ l = []) := by
  have htake : l.take limit = [] ↔ l = [] := by
    cases l with
    | nil => simp
    | cons a t =>
        cases limit with
        | zero => omega
        | succ n => simp
  refine ⟨?_, htake⟩
  constructor
  · intro h
    simp only [get_proxy_list] at h
    by_cases hemp : (l.take limit).isEmpty
    · exact htake.mp (by simpa [List.isEmpty_iff] using hemp)
    · simp [hemp] at h
  · intro h
    subst h
    simp [get_proxy_list]

/-- Witness for C4 at limit 10: the empty filtered list yields the 503
NoProxiesFound error, and a non-empty one does not. -/
theorem get_proxy_list_empty_iff_witness :
    get_proxy_list ⟨none, 1, false, false, false, false, none⟩ 10
      (fun _ => .ok ([] : List String)) =
      .error 503 "No proxies found matching the criteria" :=
  (get_proxy_list_empty_iff ⟨none, 1, false, false, false, false, none⟩ 10 []
    (by decide)).1.mpr rfl

/-- Claim C2: every criteria field supplied at the boundary is passed
unchanged into the single engine invocation whose result is returned, and a
proxy address returned by a successful get() comes from a pool candidate
that satisfies every criterion and was found live (`shuffle` is any
permutation, covering the randomized order). -/
theorem get_proxy_satisfies_criteria (q : ProxyQuery)
    (pool : List ProxyCandidate)
    (shuffle : List ProxyCandidate → List ProxyCandidate)
    (alive : ProxyCandidate → Bool) (resp : ProxyResponse)
    (hperm : ∀ l, List.Perm (shuffle l) l)
    (h : get_proxy q (fun fp => fp.get pool shuffle alive) = .ok resp) :
    ((mkFreeProxy q).country_id = country_list q.country ∧
     (mkFreeProxy q).timeout = q.timeout ∧
     (mkFreeProxy q).rand = q.random ∧
     (mkFreeProxy q).anonym = q.anonymous ∧
     (mkFreeProxy q).elite = q.elite ∧
     (mkFreeProxy q).google = q.google ∧
     (mkFreeProxy q).https = q.https) ∧
    ∃ c, c ∈ pool ∧ criteriaMatch (mkFreeProxy q) c = true ∧
      alive c = true ∧
      resp.proxy = (if q.https then "https" else "http") ++ "://" ++ c.address := by
  refine ⟨⟨rfl, rfl, rfl, rfl, rfl, rfl, rfl⟩, ?_⟩
  simp only [get_proxy, FreeProxy.get] at h
  cases hfind : ((mkFreeProxy q).orderedCandidates pool shuffle).find? alive with
  | none => simp [hfind] at h
  | some c =>
      simp only [hfind, HttpResult.ok.injEq] at h
      subst h
      have hmemO : c ∈ (mkFreeProxy q).orderedCandidates pool shuffle :=
        List.mem_of_find?_eq_some hfind
      have halive : alive c = true := List.find?_some hfind
      have hmemF : c ∈ (mkFreeProxy q).filterCandidates pool := by
        cases hr : q.random with
        | true =>
            have hs : c ∈ shuffle ((mkFreeProxy q).filterCandidates pool) := by
              simpa [FreeProxy.orderedCandidates, mkFreeProxy, hr] using hmemO
            exact ((hperm ((mkFreeProxy q).filterCandidates pool)).mem_iff).mp hs
        | false =>
            simpa [FreeProxy.orderedCandidates, mkFreeProxy, hr] using hmemO
      have hsplit := List.mem_filter.mp hmemF
      exact ⟨c, hsplit.1, hsplit.2, halive, rfl⟩

/-- Witness for C2: a one-candidate pool under https-only criteria, with
the identity shuffle and an always-live oracle. -/
theorem get_proxy_satisfies_criteria_witness :
    ∃ c, c ∈ [ProxyCandidate.mk "1.2.3.4:80" (some "US") .elite true none] ∧
      criteriaMatch (mkFreeProxy ⟨some "US", 1, false, false, false, true, none⟩)
        c = true ∧
      (fun _ : ProxyCandidate => true) c = true ∧
      (ProxyResponse.mk "https://1.2.3.4:80" "https" (some "US")).proxy =
        (if (ProxyQuery.mk (some "US") 1 false false false true none).https
          then "https" else "http") ++ "://" ++ c.address :=
  (get_proxy_satisfies_criteria ⟨some "US", 1, false, false, false, true, none⟩
    [⟨"1.2.3.4:80", some "US", .elite, true, none⟩] id (fun _ => true)
    ⟨"https://1.2.3.4:80", "https", some "US"⟩
    (fun l => List.Perm.refl l) (by decide)).2

/-- Claim C5: every successful get() response carries an address whose
scheme is determined solely by the https criterion — prefix `https` iff
https is set, `http` otherwise — and a schema field equal to that scheme. -/
theorem get_proxy_scheme_matches_https (q : ProxyQuery)
    (pool : List ProxyCandidate)
    (shuffle : List ProxyCandidate → List ProxyCandidate)
    (alive : ProxyCandidate → Bool) (resp : ProxyResponse)
    (h : get_proxy q (fun fp => fp.get pool shuffle alive) = .ok resp) :
    (∃ a, resp.proxy = (if q.https then "https" else "http") ++ "://" ++ a) ∧
    resp.schema = (if q.https then "https" else "http") := by
  simp only [get_proxy, FreeProxy.get] at h
  cases hfind : ((mkFreeProxy q).orderedCandidates pool shuffle).find? alive with
  | none => simp [hfind] at h
  | some c =>
      simp only [hfind, HttpResult.ok.injEq] at h
      subst h
      exact ⟨⟨c.address, rfl⟩, rfl⟩

/-- Witness for C5: the same concrete call once with https set and once
without, yielding the two scheme prefixes. -/
theorem get_proxy_scheme_matches_https_witness :
    ((∃ a, (ProxyResponse.mk "https://1.2.3.4:80" "https" none).proxy =
        (if true then "https" else "http") ++ "://" ++ a) ∧
      (ProxyResponse.mk "https://1.2.3.4:80" "https" none).schema =
        (if true then "https" else "http")) ∧
    ((∃ a, (ProxyResponse.mk "http://1.2.3.4:80" "http" none).proxy =
        (if false then "https" else "http") ++ "://" ++ a) ∧
      (ProxyResponse.mk "http://1.2.3.4:80" "http" none).schema =
        (if false then "https" else "http")) :=
  ⟨get_proxy_scheme_matches_https ⟨none, 1, false, false, false, true, none⟩
      [⟨"1.2.3.4:80", some "US", .elite, true, none⟩] id (fun _ => true)
      ⟨"https://1.2.3.4:80", "https", none⟩ (by decide),
   get_proxy_scheme_matches_https ⟨none, 1, false, false, false, false, none⟩
      [⟨"1.2.3.4:80", some "US", .elite, true, none⟩] id (fun _ => true)
      ⟨"http://1.2.3.4:80", "http", none⟩ (by decide)⟩

/-- Claim C8: with the elite flag set, the effective minimum-anonymity
criterion is at least anonymous whatever the anonymous flag says; the floor
for elite with anonymous unset equals the floor for elite with anonymous
set, and every candidate passing the filter is at least anonymous. -/
theorem elite_implies_anonymous_floor (q : ProxyQuery)
    (helite : q.elite = true) :
    Anonymity.anonymous.rank ≤ (effectiveAnonymityFloor (mkFreeProxy q)).rank ∧
    effectiveAnonymityFloor (mkFreeProxy q) =
      effectiveAnonymityFloor (mkFreeProxy { q with anonymous := true }) ∧
    ∀ c : ProxyCandidate, criteriaMatch (mkFreeProxy q) c = true →
      Anonymity.anonymous.rank ≤ c.anonymityLevel.rank := by
  have hfloor : effectiveAnonymityFloor (mkFreeProxy q) = .elite := by
    simp [effectiveAnonymityFloor, mkFreeProxy, helite]
  refine ⟨by simp [hfloor, Anonymity.rank], ?_, ?_⟩
  · simp [effectiveAnonymityFloor, mkFreeProxy, helite]
  · intro c hc
    simp only [criteriaMatch, Bool.and_eq_true, decide_eq_true_eq] at hc
    have hrank := hc.1.1.2
    rw [hfloor] at hrank
    simp only [Anonymity.rank] at hrank ⊢
    omega

/-- Witness for C8 at a concrete elite request. -/
theorem elite_implies_anonymous_floor_witness :
    Anonymity.anonymous.rank ≤
      (effectiveAnonymityFloor
        (mkFreeProxy ⟨none, 1, false, false, true, false, none⟩)).rank :=
  (elite_implies_anonymous_floor ⟨none, 1, false, false, true, false, none⟩
    rfl).1

/-- Counterexample for C7: the boundary's country parameter is a single
optional string — writing two codes as "US,GB" forwards the one string
"US,GB" as the sole country filter entry, not the two codes, and a US
candidate is then rejected by the filter. -/
theorem country_multi_codes_not_forwarded :
    country_list (some "US,GB") = some ["US,GB"] ∧
    country_list (some "US,GB") ≠ some ["US", "GB"] ∧
    criteriaMatch (mkFreeProxy ⟨some "US,GB", 1, false, false, false, false, none⟩)
      ⟨"1.2.3.4:80", some "US", .elite, true, none⟩ = false := by
  decide

/-- Claim C7 amended: the boundary accepts at most one optional country
code; an absent (or empty) code means no country restriction, and a present
non-empty code is forwarded to the engine as the one-element country list,
so the forwarded filter is always a singleton of the supplied code. -/
theorem country_forwarded_as_singleton (c : Option String) :
    (c = none → country_list c = none) ∧
    (∀ s, c = some s → s ≠ "" → country_list c = some [s]) ∧
    (∀ l, country_list c = some l → ∃ s, c = some s ∧ l = [s]) := by
  refine ⟨?_, ?_, ?_⟩
  · intro h; subst h; rfl
  · intro s hs hne
    subst hs
    simp [country_list, hne]
  · intro l hl
    cases c with
    | none => simp [country_list] at hl
    | some s =>
        by_cases hne : s = ""
        · simp [country_list, hne] at hl
        · simp only [country_list, hne, if_neg, if_false, Option.some.injEq] at hl
          exact ⟨s, rfl, hl.symm⟩

/-- Witness for the amended C7 at the concrete code "US". -/
theorem country_forwarded_as_singleton_witness :
    country_list (some "US") = some ["US"] :=
  (country_forwarded_as_singleton (some "US")).2.1 "US" rfl (by decide)

end FreeProxyAPI
